import Mathlib

/-!
Shallow embedding of the Moviever3 data pipeline.

Sources embedded:
* `src/utils/data_processing.py` — `prepare_df`, `filter_df`
* `src/utils/tmdb_api.py`        — `_fetch_tmdb_pages_cached` (backoff + pagination)
* `src/utils/data_loader.py`     — `get_data` (session cache / CSV / fetch orchestration)
* `src/app.py` (lines 557-627)   — `load_data_from_csv`
* `src/config.py`                — page-budget constants

Modelling conventions:
* pandas `NaN` cells are `Option` `none`; float comparisons with `NaN`
  (which are `False` in pandas) become `false` on `none`.
* `np.log10` on the float column is modelled by an abstract function
  `L : ℚ → ℚ` passed to the pipeline; the exact real-valued formula is
  treated separately (`gems_score` over `ℝ`) for the numeric claims.
* pandas date parsing (`pd.to_datetime(..., errors="coerce")`) is modelled by
  an abstract parser `Pd : String → Option SDate`; an already-parsed datetime
  cell is left unchanged and an unparseable/missing cell becomes `NaT`
  (`DateVal.null`), exactly as `errors="coerce"` behaves.
* a raised Python exception is `none` / `Except.error` at the function
  boundary.
* `ast.literal_eval` (CSV reload of list-valued columns) is modelled by
  abstract parsers `Pi`/`Ps` returning `none` on parse failure.
-/

namespace Moviever

/-! ### Basic cell values -/

/-- A calendar date as produced by `pd.to_datetime` (only the fields the
pipeline reads; `.dt.year` reads `year`). -/
structure SDate where
  year : ℤ
  month : ℕ
  day : ℕ
deriving DecidableEq, Repr

/-- A `release_date` cell: a raw string, an already-parsed datetime, or
missing (`NaN` before parsing, `NaT` after). -/
inductive DateVal
  | str (s : String)
  | dt (d : SDate)
  | null
deriving DecidableEq, Repr

/-- `pd.to_datetime(col, errors="coerce")` applied to one cell: strings are
parsed (unparseable → `NaT`), datetimes pass through, missing stays missing. -/
def toDatetime (Pd : String → Option SDate) : DateVal → DateVal
  | .str s => match Pd s with
      | some d => .dt d
      | none => .null
  | .dt d => .dt d
  | .null => .null

/-- `.dt.year` on one cell: `NaT` gives `NaN`. -/
def yearOf : DateVal → Option ℤ
  | .dt d => some d.year
  | _ => none

/-- A `genre_ids` cell as seen by `isinstance(genre_ids, list)`: a missing
cell, a float `NaN`, a scalar, or an actual list of ids. -/
inductive GenreIdsVal
  | missing
  | nanv
  | scalar (n : ℤ)
  | idList (l : List ℤ)
deriving DecidableEq, Repr

/-- Whether `isinstance(x, list)` holds for a `genre_ids` cell. -/
def GenreIdsVal.isList : GenreIdsVal → Bool
  | .idList _ => true
  | _ => false

/-! ### Rows

One row of the movie table, with the raw record fields read by the pipeline
and the derived columns written by `prepare_df`.  Numeric cells are `Option ℚ`
(`none` = `NaN`). -/

structure Row where
  adult : Bool
  original_language : String
  vote_average : Option ℚ
  vote_count : Option ℚ
  popularity : Option ℚ
  release_date : DateVal
  genre_ids : GenreIdsVal
  year : Option ℤ
  gems_score : ℚ
  genres : List String
  genres_str : String
deriving DecidableEq, Repr

/-! ### prepare_df (`src/utils/data_processing.py` lines 11-45) -/

/-- The `gems_score` cell computation of `data_processing.py` lines 18-21:
`(vote_average * log10(vote_count + 1)) / (popularity + 1)` followed by
`fillna(0)` — any `NaN` input propagates to `NaN`, coerced to `0`.
`L` models `np.log10` on the float column. -/
def gemsQ (L : ℚ → ℚ) : Option ℚ → Option ℚ → Option ℚ → ℚ
  | some a, some c, some p => a * L (c + 1) / (p + 1)
  | _, _, _ => 0

/-- `map_genre_ids` (`data_processing.py` lines 26-30): non-list cells give
`[]`, list cells are mapped through the genre map with default `"Unknown"`. -/
def mapGenreIds (G : ℤ → Option String) : GenreIdsVal → List String
  | .idList l => l.map (fun gid => (G gid).getD "Unknown")
  | _ => []

/-- `genres_str` derivation (`data_processing.py` line 36):
`", ".join(x) if x else "Unknown"`. -/
def joinGenres (l : List String) : String :=
  if l.isEmpty then "Unknown" else String.intercalate ", " l

/-- Preparation of a single row (`prepare_df` body applied cell-wise).
The language step models `lang_map.loc[x, "english_name"]` from
`data_processing.py` lines 39-43: when a language table is present
(`lm = some m`), a code absent from the table raises `KeyError` (→ `none`);
when no table is present the column is untouched. -/
def prepRow (L : ℚ → ℚ) (Pd : String → Option SDate) (G : ℤ → Option String)
    (lm : Option (List (String × String))) (r : Row) : Option Row :=
  let rd := toDatetime Pd r.release_date
  let yr := yearOf rd
  let gs := gemsQ L r.vote_average r.vote_count r.popularity
  let gl := mapGenreIds G r.genre_ids
  let gstr := joinGenres gl
  match lm with
  | none =>
      some { r with release_date := rd, year := yr, gems_score := gs,
                    genres := gl, genres_str := gstr }
  | some m =>
      match List.lookup r.original_language m with
      | some nm =>
          some { r with release_date := rd, year := yr, gems_score := gs,
                        genres := gl, genres_str := gstr,
                        original_language := nm }
      | none => none

/-- Row-list preparation: pandas applies each column operation to every row;
an exception in any row aborts the whole `prepare_df` call. -/
def prepRows (L : ℚ → ℚ) (Pd : String → Option SDate) (G : ℤ → Option String)
    (lm : Option (List (String × String))) : List Row → Option (List Row)
  | [] => some []
  | r :: rs =>
      match prepRow L Pd G lm r with
      | none => none
      | some r2 =>
          match prepRows L Pd G lm rs with
          | none => none
          | some rs2 => some (r2 :: rs2)

/-- `prepare_df` (`src/utils/data_processing.py` lines 11-45). -/
def prepare_df (L : ℚ → ℚ) (Pd : String → Option SDate) (G : ℤ → Option String)
    (lm : Option (List (String × String))) (df : List Row) : Option (List Row) :=
  prepRows L Pd G lm df

/-! ### filter_df (`src/utils/data_processing.py` lines 48-90) -/

/-- The filter parameters dict built by the sidebar
(`src/utils/filters.py` lines 240-250). -/
structure FilterSpec where
  adult : Bool
  genre : String
  original_language : String
  min_rating : ℚ
  max_popularity : ℚ
  min_vote_count : ℚ
  min_year : Option ℤ
  max_year : Option ℤ
  include_missing_dates : Bool
deriving DecidableEq, Repr

/-- One conditional filtering statement `if cond: df = df[pred]`. -/
def condFilter (c : Bool) (p : Row → Bool) (l : List Row) : List Row :=
  if c then l.filter p else l

/-- A pandas `col >= m` cell comparison: `NaN >= m` is `False`. -/
def optGE (x : Option ℚ) (m : ℚ) : Bool :=
  match x with
  | some a => decide (m ≤ a)
  | none => false

/-- A pandas `col <= m` cell comparison: `NaN <= m` is `False`. -/
def optLE (x : Option ℚ) (m : ℚ) : Bool :=
  match x with
  | some a => decide (a ≤ m)
  | none => false

/-- The `year >= min_year` cell test of `data_processing.py` line 83;
a `NaN` year compares `False`.  The `none` bound case is never reached
(the filter is guarded by `min_year is not None`). -/
def yearGE (y : Option ℤ) (m : Option ℤ) : Bool :=
  match y, m with
  | some a, some b => decide (b ≤ a)
  | none, some _ => false
  | _, none => true

/-- The `year <= max_year` cell test of `data_processing.py` line 85. -/
def yearLE (y : Option ℤ) (m : Option ℤ) : Bool :=
  match y, m with
  | some a, some b => decide (a ≤ b)
  | none, some _ => false
  | _, none => true

/-- `release_date.notna()` on one cell. -/
def dateNotNA : DateVal → Bool
  | .null => false
  | _ => true

/-- Case-insensitive substring test modelling
`genres_str.str.contains(genre, case=False, na=False)`
(`data_processing.py` lines 65-69, the fallback when the `genres` column is
absent). -/
def strContainsCI (s pat : String) : Bool :=
  decide (pat.toLower.data <:+: s.toLower.data)

/-- `filter_df` (`src/utils/data_processing.py` lines 48-90).  The booleans
`hasGenres` and `hasLang` model the `"genres" in df.columns` and
`"original_language" in df.columns` checks (lines 57 and 73); prepared
tables have both columns. -/
def filter_df (hasGenres hasLang : Bool) (rows : List Row) (f : FilterSpec) :
    List Row :=
  let d1 := condFilter (!f.adult) (fun r => r.adult == false) rows
  let d2 := condFilter (f.genre != "All")
    (fun r => if hasGenres then r.genres.contains f.genre
              else strContainsCI r.genres_str f.genre) d1
  let d3 := condFilter ((f.original_language != "All") && hasLang)
    (fun r => r.original_language == f.original_language) d2
  let d4 := d3.filter (fun r => optGE r.vote_average f.min_rating)
  let d5 := d4.filter (fun r => optLE r.popularity f.max_popularity)
  let d6 := d5.filter (fun r => optGE r.vote_count f.min_vote_count)
  let d7 := condFilter f.min_year.isSome (fun r => yearGE r.year f.min_year) d6
  let d8 := condFilter f.max_year.isSome (fun r => yearLE r.year f.max_year) d7
  condFilter (!f.include_missing_dates) (fun r => dateNotNA r.release_date) d8

/-! ### The backoff-paginated collector (`src/utils/tmdb_api.py` lines 64-106)

A page's remote behaviour is a pair `(rl, data)`: the page answers
rate-limited `rl` times and then delivers `data` — the "finite sequence of
rate-limit responses followed by a success" of the spec. -/

/-- The JSON payload of one successful page fetch: the collector reads
`data.get("total_pages", max_pages)` and `data.get("results", [])`. -/
structure PageData (α : Type) where
  total_pages : Option ℕ
  results : List α
deriving DecidableEq, Repr

/-- The inner `while True` retry loop (`tmdb_api.py` lines 78-87) for a page
answering rate-limited `n` more times, entered with the current `backoff`.
Returns the sleeps performed (in order) and the backoff value after the
`break` (the loop always exits by setting `backoff = 1.0`).  Each
rate-limited response sleeps the current backoff, then doubles it capped at
`10.0`. -/
def retryWith : ℕ → ℚ → List ℚ × ℚ
  | 0, _ => ([], 1)
  | n + 1, b =>
      let r := retryWith n (min (b * 2) 10)
      (b :: r.1, r.2)

/-- Collector loop state: collected movies, the `total_pages_known` cell,
all sleeps performed, and the pages for which a fetch round completed. -/
structure CollectSt (α : Type) where
  all_movies : List α
  total_pages_known : Option ℕ
  sleeps : List ℚ
  fetched : List ℕ
deriving DecidableEq, Repr

/-- The `for page in range(1, max_pages + 1)` loop of
`_fetch_tmdb_pages_cached` (`tmdb_api.py` lines 77-99): fuel counts the
remaining loop iterations, `page` is the current page number, `b` the
backoff carried across iterations.  Mirrors the source statement-for-
statement: retry-until-not-rate-limited, set `total_pages_known` if unknown,
break on empty `results`, extend, break when `page >= total_pages_known`. -/
def collectLoop (fetch : ℕ → ℕ × PageData α) (M : ℕ) :
    ℕ → ℕ → ℚ → CollectSt α → CollectSt α
  | 0, _, _, st => st
  | rem + 1, page, b, st =>
      let rd := fetch page
      let rw := retryWith rd.1 b
      let st1 : CollectSt α :=
        ⟨st.all_movies, st.total_pages_known, st.sleeps ++ rw.1,
         st.fetched ++ [page]⟩
      let tp : ℕ := st1.total_pages_known.getD (min (rd.2.total_pages.getD M) M)
      if rd.2.results.isEmpty then
        ⟨st1.all_movies, some tp, st1.sleeps, st1.fetched⟩
      else
        let st2 : CollectSt α :=
          ⟨st1.all_movies ++ rd.2.results, some tp, st1.sleeps, st1.fetched⟩
        if tp ≤ page then st2
        else collectLoop fetch M rem (page + 1) rw.2 st2

/-- The collector's final loop state for a run over pages `1..M`
(initial `backoff = 1.0`, `total_pages_known = None`). -/
def collectSt (fetch : ℕ → ℕ × PageData α) (M : ℕ) : CollectSt α :=
  collectLoop fetch M M 1 1 ⟨[], none, [], []⟩

/-- `_fetch_tmdb_pages_cached` (`tmdb_api.py` lines 64-106): the collected
movies, or the `RuntimeError` raised when the whole run collects nothing. -/
def collect (fetch : ℕ → ℕ × PageData α) (M : ℕ) : Except String (List α) :=
  let st := collectSt fetch M
  if st.all_movies.isEmpty then
    Except.error "No movies fetched. Please check your TMDB token / connection."
  else Except.ok st.all_movies

/-- Records of pages `p, p+1, ..., p+n-1` concatenated in page order. -/
def pagesConcat (fetch : ℕ → ℕ × PageData α) (p : ℕ) : ℕ → List α
  | 0 => []
  | n + 1 => (fetch p).2.results ++ pagesConcat fetch (p + 1) n

/-- The page numbers `p, p+1, ..., p+n-1`. -/
def pagesList (p : ℕ) : ℕ → List ℕ
  | 0 => []
  | n + 1 => p :: pagesList (p + 1) n

/-! ### Configuration constants (`src/config.py`) -/

def MAX_TMDB_PAGES : ℕ := 500

def DEFAULT_FETCH_PAGES : ℕ := 500

/-! ### get_data (`src/utils/data_loader.py` lines 14-136)

The orchestrator's observable outcome: the value returned, the
`tmdb_prepared_data` session-state entry afterwards, the
`tmdb_show_progress` entry afterwards, whether an exception escaped
`get_data` (only lines 49-136 sit inside the `try`), and whether a failure
was reported via `st.error`.  `st.info` / `st.success` notices and the CSV
write are presentation/persistence side effects outside these claims. -/

structure GetDataOut where
  ret : Option (List Row)
  sessionData : Option (List Row)
  showProgress : Option Bool
  crashed : Bool
  reportedError : Bool
deriving DecidableEq, Repr

/-- The third tier of `get_data` (`data_loader.py` lines 44-136): fetch from
TMDB.  The first-load branch (`show_progress` true, lines 50-118) inlines
the same page loop as `_fetch_tmdb_pages_cached` over
`config.DEFAULT_FETCH_PAGES` pages and returns `None` on an empty
collection; the later-load branch (lines 120-132) calls
`fetch_tmdb_all_pages`, whose empty-result `RuntimeError` is caught at line
134.  Preparation failures inside the `try` are caught there as well. -/
def getDataMiss (L : ℚ → ℚ) (Pd : String → Option SDate)
    (G : ℤ → Option String) (lm : Option (List (String × String)))
    (fetch : ℕ → ℕ × PageData Row) (session : Option (List Row))
    (showP0 : Option Bool) : GetDataOut :=
  let sp := showP0.getD true
  if sp then
    let st := collectSt fetch DEFAULT_FETCH_PAGES
    if st.all_movies.isEmpty then
      ⟨none, session, some sp, false, true⟩
    else
      match prepare_df L Pd G lm st.all_movies with
      | some t => ⟨some t, some t, some false, false, false⟩
      | none => ⟨none, session, some sp, false, true⟩
  else
    match collect fetch MAX_TMDB_PAGES with
    | Except.error _ => ⟨none, session, some sp, false, true⟩
    | Except.ok movies =>
        match prepare_df L Pd G lm movies with
        | some t => ⟨some t, some t, some false, false, false⟩
        | none => ⟨none, session, some sp, false, true⟩

/-- The second tier of `get_data` (`data_loader.py` lines 31-42): on a
non-empty CSV load the raw loaded table is stored into session state and
`show_progress` cleared *before* `prepare_df` runs (lines 34-35, 42), so a
preparation failure here escapes `get_data` (it is above the `try`). -/
def getDataCsv (L : ℚ → ℚ) (Pd : String → Option SDate)
    (G : ℤ → Option String) (lm : Option (List (String × String)))
    (fetch : ℕ → ℕ × PageData Row) (session : Option (List Row))
    (showP0 : Option Bool) (csv : Option (List Row)) : GetDataOut :=
  match csv with
  | some d =>
      if d.length > 0 then
        match prepare_df L Pd G lm d with
        | some t => ⟨some t, some d, some false, false, false⟩
        | none => ⟨none, some d, some false, true, false⟩
      else getDataMiss L Pd G lm fetch session showP0
  | none => getDataMiss L Pd G lm fetch session showP0

/-- `get_data` (`src/utils/data_loader.py` lines 14-136).  The session-hit
tier (lines 26-29) re-runs `prepare_df` on the cached table and sits above
the `try`, so a preparation failure there escapes `get_data`. -/
def get_data (L : ℚ → ℚ) (Pd : String → Option SDate)
    (G : ℤ → Option String) (lm : Option (List (String × String)))
    (fetch : ℕ → ℕ × PageData Row) (session : Option (List Row))
    (showP0 : Option Bool) (csv : Option (List Row)) : GetDataOut :=
  match session with
  | some cached =>
      if cached.length > 0 then
        match prepare_df L Pd G lm cached with
        | some t => ⟨some t, session, showP0, false, false⟩
        | none => ⟨none, session, showP0, true, false⟩
      else getDataCsv L Pd G lm fetch session showP0 csv
  | none => getDataCsv L Pd G lm fetch session showP0 csv

/-! ### load_data_from_csv (`src/app.py` lines 557-627)

Stored-snapshot model: per-row cell values plus table-level flags recording
which optional columns the stored file has.  The base Record columns
(including `genre_ids`, written by `save_data_to_csv`) always have cells in
a `StoredRow`; derived columns are meaningful only when the matching flag is
set.  List-valued columns read back from CSV normally hold their textual
representation (`strv`), parsed by `ast.literal_eval`; the `isinstance(x,
list)` branches of the source are kept via `listv`. -/

/-- A stored list-valued cell: `NaN`, a string representation, or an actual
list (the `isinstance(x, list)` branch). -/
inductive StoredCell (β : Type)
  | null
  | strv (s : String)
  | listv (l : List β)
deriving DecidableEq, Repr

/-- `parse_genre_ids` (`app.py` lines 571-581): `NaN`/empty string → `[]`,
a list passes through, otherwise `ast.literal_eval` with `[]` on failure.
`Pi` models `ast.literal_eval` restricted to integer-list results. -/
def parse_genre_ids (Pi : String → Option (List ℤ)) :
    StoredCell ℤ → List ℤ
  | .null => []
  | .strv s => if s = "" then [] else (Pi s).getD []
  | .listv l => l

/-- `parse_genres` (`app.py` lines 595-608): as `parse_genre_ids` but the
parse result is kept only when it is a list. -/
def parse_genres (Ps : String → Option (List String)) :
    StoredCell String → List String
  | .null => []
  | .strv s => if s = "" then [] else (Ps s).getD []
  | .listv l => l

/-- One row of the stored CSV snapshot. -/
structure StoredRow where
  adult : Bool
  original_language : String
  vote_average : Option ℚ
  vote_count : Option ℚ
  popularity : Option ℚ
  release_date : DateVal
  genre_ids : StoredCell ℤ
  gems_score : ℚ
  year : Option ℤ
  genres : StoredCell String
  genres_str : String
deriving DecidableEq, Repr

/-- The stored CSV snapshot: rows plus which optional columns the file has.
The `dtype == "object"` guards of lines 570 and 594 hold for list-valued
columns read back from CSV (they deserialize as strings), so they are not
modelled separately. -/
structure StoredTable where
  rows : List StoredRow
  has_genre_ids : Bool
  has_gems : Bool
  has_year : Bool
  has_genres : Bool
  has_genres_str : Bool
deriving DecidableEq, Repr

/-- The per-row work of `load_data_from_csv` (`app.py` lines 563-622):
re-parse the date, parse `genre_ids`, take `gems_score`/`year` from the file
when present else re-derive them (lines 584-589), parse `genres` when
present, and regenerate `genres` and `genres_str` from `genre_ids` whenever
either is absent (lines 611-619; the `elif` of line 620 is unreachable since
the `or` at line 612 already covers a missing `genres_str`). -/
def loadRow (L : ℚ → ℚ) (Pd : String → Option SDate)
    (Pi : String → Option (List ℤ)) (Ps : String → Option (List String))
    (G : ℤ → Option String) (T : StoredTable) (r : StoredRow) : Row :=
  let rd := toDatetime Pd r.release_date
  let gids : List ℤ := parse_genre_ids Pi r.genre_ids
  let gs : ℚ :=
    if T.has_gems then r.gems_score
    else gemsQ L r.vote_average r.vote_count r.popularity
  let yr : Option ℤ := if T.has_year then r.year else yearOf rd
  let gpair : List String × String :=
    if T.has_genres && T.has_genres_str then
      (parse_genres Ps r.genres, r.genres_str)
    else
      let gl := mapGenreIds G (.idList gids)
      (gl, joinGenres gl)
  { adult := r.adult
    original_language := r.original_language
    vote_average := r.vote_average
    vote_count := r.vote_count
    popularity := r.popularity
    release_date := rd
    genre_ids := if T.has_genre_ids then .idList gids else .missing
    year := yr
    gems_score := gs
    genres := gpair.1
    genres_str := gpair.2 }

/-- `load_data_from_csv` (`src/app.py` lines 557-627).  The only exception
reachable from a snapshot holding all base Record columns is the `KeyError`
on `df["genre_ids"]` at line 618 when the genres columns must be regenerated
but the file has no `genre_ids` column; the `except` at line 625 turns any
exception into `None`. -/
def load_data_from_csv (L : ℚ → ℚ) (Pd : String → Option SDate)
    (Pi : String → Option (List ℤ)) (Ps : String → Option (List String))
    (G : ℤ → Option String) (T : StoredTable) : Option (List Row) :=
  if !(T.has_genres && T.has_genres_str) && !T.has_genre_ids then none
  else some (T.rows.map (loadRow L Pd Pi Ps G T))

/-! ### Helper lemmas: the filter engine -/

lemma condFilter_sublist (c : Bool) (p : Row → Bool) (l : List Row) :
    List.Sublist (condFilter c p l) l := by
  unfold condFilter
  cases c
  · simp
  · simp [List.filter_sublist]

lemma mem_condFilter {c : Bool} {p : Row → Bool} {l : List Row} {r : Row} :
    r ∈ condFilter c p l ↔ r ∈ l ∧ (c = true → p r = true) := by
  unfold condFilter
  cases c <;> simp [List.mem_filter]

lemma condFilter_true (p : Row → Bool) (l : List Row) :
    condFilter true p l = l.filter p := rfl

lemma condFilter_false (p : Row → Bool) (l : List Row) :
    condFilter false p l = l := rfl

/-- Membership in `filter_df` is membership in the input plus every active
predicate of the spec. -/
lemma mem_filter_df {hG hL : Bool} {rows : List Row} {f : FilterSpec}
    {r : Row} :
    r ∈ filter_df hG hL rows f ↔
      r ∈ rows ∧
      ((!f.adult) = true → r.adult = false) ∧
      ((f.genre != "All") = true →
        (if hG then r.genres.contains f.genre
         else strContainsCI r.genres_str f.genre) = true) ∧
      (((f.original_language != "All") && hL) = true →
        r.original_language = f.original_language) ∧
      optGE r.vote_average f.min_rating = true ∧
      optLE r.popularity f.max_popularity = true ∧
      optGE r.vote_count f.min_vote_count = true ∧
      (f.min_year.isSome = true → yearGE r.year f.min_year = true) ∧
      (f.max_year.isSome = true → yearLE r.year f.max_year = true) ∧
      ((!f.include_missing_dates) = true →
        dateNotNA r.release_date = true) := by
  simp only [filter_df, mem_condFilter, List.mem_filter, beq_iff_eq]
  tauto

lemma filter_df_sublist (hG hL : Bool) (rows : List Row) (f : FilterSpec) :
    List.Sublist (filter_df hG hL rows f) rows := by
  unfold filter_df
  refine (condFilter_sublist _ _ _).trans ?_
  refine (condFilter_sublist _ _ _).trans ?_
  refine (condFilter_sublist _ _ _).trans ?_
  refine (List.filter_sublist _).trans ?_
  refine (List.filter_sublist _).trans ?_
  refine (List.filter_sublist _).trans ?_
  refine (condFilter_sublist _ _ _).trans ?_
  refine (condFilter_sublist _ _ _).trans ?_
  exact condFilter_sublist _ _ _

/-- C5.  `filter_df` returns an order-preserving subset of its input; every
retained row satisfies every active predicate conjunctively (adult-content
inclusion, genre membership when the genre is not "All", language equality
when not "All", rating floor, popularity ceiling, vote-count floor, year
bounds, missing-date inclusion); and with all optional predicates disabled
(and every row passing the always-on numeric thresholds) it returns the
input unchanged except for the default adult-content exclusion. -/
theorem claim_C5_filter_conjunction (rows : List Row) (f : FilterSpec) :
    (∀ hG hL, List.Sublist (filter_df hG hL rows f) rows) ∧
    (∀ r ∈ filter_df true true rows f,
      r ∈ rows ∧
      (f.adult = false → r.adult = false) ∧
      (f.genre ≠ "All" → r.genres.contains f.genre = true) ∧
      (f.original_language ≠ "All" →
        r.original_language = f.original_language) ∧
      optGE r.vote_average f.min_rating = true ∧
      optLE r.popularity f.max_popularity = true ∧
      optGE r.vote_count f.min_vote_count = true ∧
      (∀ m, f.min_year = some m → yearGE r.year (some m) = true) ∧
      (∀ m, f.max_year = some m → yearLE r.year (some m) = true) ∧
      (f.include_missing_dates = false →
        dateNotNA r.release_date = true)) ∧
    (f.adult = false → f.genre = "All" → f.original_language = "All" →
      f.min_year = none → f.max_year = none →
      f.include_missing_dates = true →
      (∀ r ∈ rows, optGE r.vote_average f.min_rating = true ∧
        optLE r.popularity f.max_popularity = true ∧
        optGE r.vote_count f.min_vote_count = true) →
      ∀ hG hL,
        filter_df hG hL rows f = rows.filter (fun r => r.adult == false)) := by
  refine ⟨fun hG hL => filter_df_sublist hG hL rows f, ?_, ?_⟩
  · intro r hr
    rw [mem_filter_df] at hr
    obtain ⟨h0, h1, h2, h3, h4, h5, h6, h7, h8, h9⟩ := hr
    refine ⟨h0, ?_, ?_, ?_, h4, h5, h6, ?_, ?_, ?_⟩
    · intro ha
      exact h1 (by simp [ha])
    · intro hg
      have := h2 (by simpa using hg)
      simpa using this
    · intro hl
      exact h3 (by simpa using hl)
    · intro m hm
      have := h7 (by simp [hm])
      rwa [hm] at this
    · intro m hm
      have := h8 (by simp [hm])
      rwa [hm] at this
    · intro hi
      exact h9 (by simp [hi])
  · intro ha hg hl hmin hmax hinc hnum hG hL
    unfold filter_df
    rw [ha, hg, hl, hmin, hmax, hinc]
    simp only [Bool.not_false, Bool.not_true, bne_self_eq_false,
      Bool.false_and, Option.isSome_none, condFilter_true, condFilter_false]
    have hsub : ∀ r ∈ rows.filter (fun r => r.adult == false), r ∈ rows :=
      fun r hr => List.mem_of_mem_filter hr
    rw [List.filter_eq_self.mpr (fun r hr => (hnum r (hsub r hr)).1)]
    rw [List.filter_eq_self.mpr (fun r hr => (hnum r (hsub r hr)).2.1)]
    rw [List.filter_eq_self.mpr (fun r hr => (hnum r (hsub r hr)).2.2)]

/-- Witness for C5 at a concrete two-row table and a spec with all optional
predicates disabled. -/
theorem claim_C5_witness :
    filter_df true true
      [{ adult := false, original_language := "en", vote_average := some 8,
         vote_count := some 100, popularity := some 5,
         release_date := DateVal.dt ⟨2001, 5, 3⟩,
         genre_ids := GenreIdsVal.idList [35], year := some 2001,
         gems_score := 1, genres := ["Comedy"], genres_str := "Comedy" },
       { adult := true, original_language := "en", vote_average := some 8,
         vote_count := some 100, popularity := some 5,
         release_date := DateVal.dt ⟨2001, 5, 3⟩,
         genre_ids := GenreIdsVal.idList [35], year := some 2001,
         gems_score := 1, genres := ["Comedy"], genres_str := "Comedy" }]
      { adult := false, genre := "All", original_language := "All",
        min_rating := 0, max_popularity := 100, min_vote_count := 0,
        min_year := none, max_year := none, include_missing_dates := true } =
    [{ adult := false, original_language := "en", vote_average := some 8,
       vote_count := some 100, popularity := some 5,
       release_date := DateVal.dt ⟨2001, 5, 3⟩,
       genre_ids := GenreIdsVal.idList [35], year := some 2001,
       gems_score := 1, genres := ["Comedy"], genres_str := "Comedy" }] := by
  rw [(claim_C5_filter_conjunction _ _).2.2 rfl rfl rfl rfl rfl rfl
    (by decide) true true]
  decide

/-- A prepared row with a missing release date (hence null year) that passes
every non-year predicate of `c2spec`. -/
def c2row : Row :=
  { adult := false, original_language := "en", vote_average := some 8,
    vote_count := some 100, popularity := some 5,
    release_date := DateVal.null, genre_ids := GenreIdsVal.idList [35],
    year := none, gems_score := 1, genres := ["Comedy"],
    genres_str := "Comedy" }

/-- A filter spec with missing-date inclusion enabled and a `min_year`
bound set. -/
def c2spec : FilterSpec :=
  { adult := false, genre := "All", original_language := "All",
    min_rating := 0, max_popularity := 100, min_vote_count := 0,
    min_year := some 2000, max_year := none,
    include_missing_dates := true }

/-- C2 counterexample.  With missing-date inclusion enabled but `min_year`
set, a row with a null year that satisfies every other active predicate is
dropped: `filter_df` returns the empty table, not the row.  (The pandas
comparison `NaN >= min_year` is `False`, `data_processing.py` line 83.) -/
theorem claim_C2_counterexample :
    c2spec.include_missing_dates = true ∧
    c2spec.min_year = some 2000 ∧
    c2row.year = none ∧
    c2row.adult = false ∧
    optGE c2row.vote_average c2spec.min_rating = true ∧
    optLE c2row.popularity c2spec.max_popularity = true ∧
    optGE c2row.vote_count c2spec.min_vote_count = true ∧
    filter_df true true [c2row] c2spec = [] := by
  refine ⟨rfl, rfl, rfl, rfl, ?_, ?_, ?_, ?_⟩ <;> decide

/-- C2 (amended).  With missing-date inclusion enabled, a null-year row
satisfying all other active predicates is retained only when both year
bounds are unset; whenever `min_year` or `max_year` is set a null year
causes exclusion even with missing-date inclusion enabled; and with
missing-date inclusion disabled a null release date causes exclusion. -/
theorem claim_C2_year_bounds_exclude_null (rows : List Row) (f : FilterSpec)
    (r : Row) :
    (f.include_missing_dates = true → f.min_year = none → f.max_year = none →
      r ∈ rows → r.year = none →
      (f.adult = true ∨ r.adult = false) →
      (f.genre = "All" ∨ r.genres.contains f.genre = true) →
      (f.original_language = "All" ∨
        r.original_language = f.original_language) →
      optGE r.vote_average f.min_rating = true →
      optLE r.popularity f.max_popularity = true →
      optGE r.vote_count f.min_vote_count = true →
      r ∈ filter_df true true rows f) ∧
    (∀ m, f.min_year = some m → r.year = none →
      r ∉ filter_df true true rows f) ∧
    (∀ m, f.max_year = some m → r.year = none →
      r ∉ filter_df true true rows f) ∧
    (f.include_missing_dates = false → r.release_date = DateVal.null →
      r ∉ filter_df true true rows f) := by
  refine ⟨?_, ?_, ?_, ?_⟩
  · intro hinc hmin hmax hmem hy hadult hgenre hlang hra hpo hvc
    rw [mem_filter_df]
    refine ⟨hmem, ?_, ?_, ?_, hra, hpo, hvc, ?_, ?_, ?_⟩
    · intro h
      rcases hadult with h1 | h1
      · rw [h1] at h
        exact absurd h (by decide)
      · exact h1
    · intro h
      rcases hgenre with h1 | h1
      · rw [h1] at h
        exact absurd h (by decide)
      · simpa using h1
    · intro h
      rcases hlang with h1 | h1
      · rw [h1] at h
        exact absurd h (by decide)
      · exact h1
    · intro h
      rw [hmin] at h
      exact absurd h (by decide)
    · intro h
      rw [hmax] at h
      exact absurd h (by decide)
    · intro h
      rw [hinc] at h
      exact absurd h (by decide)
  · intro m hm hy hmem
    rw [mem_filter_df] at hmem
    have h7 := hmem.2.2.2.2.2.2.2.1 (by rw [hm]; rfl)
    rw [hm, hy] at h7
    simp [yearGE] at h7
  · intro m hm hy hmem
    rw [mem_filter_df] at hmem
    have h8 := hmem.2.2.2.2.2.2.2.2.1 (by rw [hm]; rfl)
    rw [hm, hy] at h8
    simp [yearLE] at h8
  · intro hinc hrel hmem
    rw [mem_filter_df] at hmem
    have h9 := hmem.2.2.2.2.2.2.2.2.2 (by rw [hinc]; rfl)
    rw [hrel] at h9
    exact absurd h9 (by decide)

/-- Witness for C2: with both bounds unset the null-year row is retained,
and with the `min_year` bound of `c2spec` it is excluded. -/
theorem claim_C2_witness :
    c2row ∈ filter_df true true [c2row]
      { c2spec with min_year := none } ∧
    c2row ∉ filter_df true true [c2row] c2spec := by
  constructor
  · exact (claim_C2_year_bounds_exclude_null [c2row]
      { c2spec with min_year := none } c2row).1 rfl rfl rfl
      (by simp) rfl (Or.inr rfl) (Or.inl rfl) (Or.inl rfl)
      (by decide) (by decide) (by decide)
  · exact (claim_C2_year_bounds_exclude_null [c2row] c2spec c2row).2.1
      2000 rfl rfl

/-! ### Helper lemmas: prepare_df -/

lemma prepRows_forall₂ {L : ℚ → ℚ} {Pd : String → Option SDate}
    {G : ℤ → Option String} {lm : Option (List (String × String))} :
    ∀ {l out}, prepRows L Pd G lm l = some out →
      List.Forall₂ (fun a b => prepRow L Pd G lm a = some b) l out := by
  intro l
  induction l with
  | nil =>
      intro out h
      simp only [prepRows, Option.some.injEq] at h
      rw [← h]
      exact List.Forall₂.nil
  | cons r rs ih =>
      intro out h
      unfold prepRows at h
      cases h1 : prepRow L Pd G lm r with
      | none => rw [h1] at h; exact absurd h (by simp)
      | some r2 =>
          rw [h1] at h
          cases h2 : prepRows L Pd G lm rs with
          | none => rw [h2] at h; exact absurd h (by simp)
          | some rs2 =>
              rw [h2] at h
              simp only [Option.some.injEq] at h
              rw [← h]
              exact List.Forall₂.cons h1 (ih h2)

lemma prepRows_none_of_mem {L : ℚ → ℚ} {Pd : String → Option SDate}
    {G : ℤ → Option String} {lm : Option (List (String × String))}
    {r : Row} : ∀ {l}, r ∈ l → prepRow L Pd G lm r = none →
      prepRows L Pd G lm l = none := by
  intro l
  induction l with
  | nil => intro h; exact absurd h (by simp)
  | cons a as ih =>
      intro hmem hr
      rcases List.mem_cons.mp hmem with h | h
      · unfold prepRows
        rw [← h, hr]
      · unfold prepRows
        cases h1 : prepRow L Pd G lm a with
        | none => rfl
        | some a2 => rw [ih h hr]

lemma prepRow_lm_none (L : ℚ → ℚ) (Pd : String → Option SDate)
    (G : ℤ → Option String) (r : Row) :
    prepRow L Pd G none r =
      some { r with release_date := toDatetime Pd r.release_date,
                    year := yearOf (toDatetime Pd r.release_date),
                    gems_score := gemsQ L r.vote_average r.vote_count
                      r.popularity,
                    genres := mapGenreIds G r.genre_ids,
                    genres_str := joinGenres (mapGenreIds G r.genre_ids) } :=
  rfl

lemma prepRows_lm_none_isSome (L : ℚ → ℚ) (Pd : String → Option SDate)
    (G : ℤ → Option String) : ∀ l : List Row,
    (prepRows L Pd G none l).isSome = true := by
  intro l
  induction l with
  | nil => rfl
  | cons r rs ih =>
      unfold prepRows
      rw [prepRow_lm_none]
      cases h2 : prepRows L Pd G none rs with
      | none => rw [h2] at ih; exact absurd ih (by simp)
      | some rs2 => rfl

lemma prepRow_lm_some {L : ℚ → ℚ} {Pd : String → Option SDate}
    {G : ℤ → Option String} {m : List (String × String)} {r b : Row} :
    prepRow L Pd G (some m) r = some b →
      List.lookup r.original_language m = some b.original_language := by
  intro h
  simp only [prepRow] at h
  cases hl : List.lookup r.original_language m with
  | none => rw [hl] at h; exact absurd h (by simp)
  | some nm =>
      rw [hl] at h
      simp only [Option.some.injEq] at h
      rw [← h]

lemma prepRow_lm_missing {L : ℚ → ℚ} {Pd : String → Option SDate}
    {G : ℤ → Option String} {m : List (String × String)} {r : Row} :
    List.lookup r.original_language m = none →
      prepRow L Pd G (some m) r = none := by
  intro h
  simp only [prepRow]
  rw [h]

/-- C3 (amended).  `prepare_df` leaves the `original_language` codes
untouched only when the language lookup table is unavailable; when a table
is present, codes found in it are resolved to their display names, and a
row whose code is absent from the table makes `prepare_df` raise a
`KeyError` (modelled as `none`) instead of leaving the raw code untouched. -/
theorem claim_C3_language_lookup (L : ℚ → ℚ) (Pd : String → Option SDate)
    (G : ℤ → Option String) (rows : List Row) :
    ((prepare_df L Pd G none rows).isSome = true ∧
      (∀ out, prepare_df L Pd G none rows = some out →
        List.Forall₂ (fun a b => b.original_language = a.original_language)
          rows out)) ∧
    (∀ m out, prepare_df L Pd G (some m) rows = some out →
      List.Forall₂
        (fun a b => List.lookup a.original_language m =
          some b.original_language) rows out) ∧
    (∀ m r, r ∈ rows → List.lookup r.original_language m = none →
      prepare_df L Pd G (some m) rows = none) := by
  refine ⟨⟨prepRows_lm_none_isSome L Pd G rows, ?_⟩, ?_, ?_⟩
  · intro out h
    refine (prepRows_forall₂ h).imp ?_
    intro a b hab
    rw [prepRow_lm_none] at hab
    simp only [Option.some.injEq] at hab
    rw [← hab]
  · intro m out h
    exact (prepRows_forall₂ h).imp (fun _ _ hab => prepRow_lm_some hab)
  · intro m r hmem hl
    exact prepRows_none_of_mem hmem (prepRow_lm_missing hl)

/-! Concrete inputs for the prepare_df claims. -/

def L0 : ℚ → ℚ := fun _ => 0

def Pd0 : String → Option SDate := fun _ => none

def G0 : ℤ → Option String := fun _ => none

def fetch0 : ℕ → ℕ × PageData Row := fun _ => (0, ⟨none, []⟩)

/-- A raw record whose language code is absent from the lookup table. -/
def c3row : Row :=
  { adult := false, original_language := "xx", vote_average := some 8,
    vote_count := some 10, popularity := some 5,
    release_date := DateVal.null, genre_ids := GenreIdsVal.idList [],
    year := none, gems_score := 0, genres := [], genres_str := "" }

/-- C3 counterexample.  With a language table available that lacks the
row's code, `prepare_df` raises (returns `none`): the raw code is not left
untouched and an error is raised, contrary to the claim. -/
theorem claim_C3_counterexample :
    List.lookup c3row.original_language [("en", "English")] = none ∧
    prepare_df L0 Pd0 G0 (some [("en", "English")]) [c3row] = none := by
  constructor
  · decide
  · decide

/-- Witness for C3: the amended claim applied at `c3row` — succeeds with no
table, fails with a table lacking the code. -/
theorem claim_C3_witness :
    (prepare_df L0 Pd0 G0 none [c3row]).isSome = true ∧
    prepare_df L0 Pd0 G0 (some [("en", "English")]) [c3row] = none := by
  constructor
  · exact (claim_C3_language_lookup L0 Pd0 G0 [c3row]).1.1
  · exact (claim_C3_language_lookup L0 Pd0 G0 [c3row]).2.2
      [("en", "English")] c3row (by simp) (by decide)

/-! ### C1: idempotence of preparation and the session-cache hit -/

/-- A raw record with language code "en" (its `vote_average` cell is `NaN`,
so its `gems_score` is the `fillna` value `0`). -/
def c1row : Row :=
  { adult := false, original_language := "en", vote_average := none,
    vote_count := some 10, popularity := some 1,
    release_date := DateVal.null, genre_ids := GenreIdsVal.idList [],
    year := none, gems_score := 0, genres := [], genres_str := "" }

/-- The table `prepare_df` produces from `[c1row]` with the language table
`[("en", "English")]`: the language column now holds the display name. -/
def c1prep : Row :=
  { c1row with original_language := "English", genres_str := "Unknown" }

/-- C1 (refuted; the code contradicts the spec's required idempotence).
Preparing `[c1row]` once succeeds and resolves the language code to
"English"; re-running `prepare_df` on that already-prepared table raises a
`KeyError` ("English" is not a key of the language table), so
`prepare(prepare(rows))` is not `prepare(rows)`; consequently a session
cache hit — which re-runs `prepare_df` on the cached prepared table
(`data_loader.py` line 29, above the `try`) — raises out of `get_data`
instead of returning the same table. -/
theorem claim_C1_session_reprepare_crashes :
    prepare_df L0 Pd0 G0 (some [("en", "English")]) [c1row] =
      some [c1prep] ∧
    prepare_df L0 Pd0 G0 (some [("en", "English")]) [c1prep] = none ∧
    (get_data L0 Pd0 G0 (some [("en", "English")]) fetch0 (some [c1prep])
      none none).crashed = true ∧
    (get_data L0 Pd0 G0 (some [("en", "English")]) fetch0 (some [c1prep])
      none none).ret = none := by
  refine ⟨?_, ?_, ?_, ?_⟩ <;> decide

/-! ### C4: the exact gems-score formula over ℝ

`np.log10` is the real base-10 logarithm, so the exact numeric claims are
stated over `ℝ` (noncomputable in Lean; the witness uses an explicit proof
term instead of evaluation).  The score is a Lean function of its three
arguments, so determinism is definitional. -/

/-- The gems-score formula of `data_processing.py` lines 18-20:
`rating * log10(vote_count + 1) / (popularity + 1)`. -/
noncomputable def gems_score (rating vote_count popularity : ℝ) : ℝ :=
  rating * Real.logb 10 (vote_count + 1) / (popularity + 1)

/-- The formula on nullable cells with the `fillna(0)` of line 21: a `NaN`
input makes the result `NaN`, coerced to `0`. -/
noncomputable def gems_score_cell (va vc pop : Option ℝ) : ℝ :=
  match va, vc, pop with
  | some a, some c, some p => gems_score a c p
  | _, _, _ => 0

lemma gems_score_nonneg {r v p : ℝ} (hr : 0 ≤ r) (hv : 0 ≤ v)
    (hp : 0 ≤ p) : 0 ≤ gems_score r v p := by
  unfold gems_score
  apply div_nonneg
  · exact mul_nonneg hr (Real.logb_nonneg (by norm_num) (by linarith))
  · linarith

/-- C4.  On non-negative inputs the gems score is non-negative (and the
denominator is at least 1, so the real-valued formula is well defined);
`NaN` inputs are coerced to `0`; and
`rating=7.5, vote_count=99, popularity=4` gives exactly `3`. -/
theorem claim_C4_gems_score :
    (∀ r v p : ℝ, 0 ≤ r → 0 ≤ v → 0 ≤ p →
      0 ≤ gems_score r v p ∧ 1 ≤ p + 1) ∧
    gems_score 7.5 99 4 = 3 ∧
    (∀ va vc pop : Option ℝ,
      (∀ a, va = some a → 0 ≤ a) → (∀ c, vc = some c → 0 ≤ c) →
      (∀ q, pop = some q → 0 ≤ q) → 0 ≤ gems_score_cell va vc pop) ∧
    gems_score_cell none none none = 0 := by
  refine ⟨?_, ?_, ?_, rfl⟩
  · intro r v p hr hv hp
    exact ⟨gems_score_nonneg hr hv hp, by linarith⟩
  · unfold gems_score
    have hlog : Real.log 10 ≠ 0 := by
      have h1 : (1 : ℝ) < 10 := by norm_num
      exact ne_of_gt (Real.log_pos h1)
    have h100 : (99 : ℝ) + 1 = 10 ^ (2 : ℕ) := by norm_num
    rw [h100, Real.logb, Real.log_pow]
    field_simp
    ring
  · intro va vc pop h1 h2 h3
    match va, vc, pop with
    | some a, some c, some p =>
        exact gems_score_nonneg (h1 a rfl) (h2 c rfl) (h3 p rfl)
    | none, _, _ => exact le_refl 0
    | some _, none, _ => exact le_refl 0
    | some _, some _, none => exact le_refl 0

/-- Witness for C4: the non-negativity part applied at `(0, 0, 0)`. -/
theorem claim_C4_witness : 0 ≤ gems_score 0 0 0 ∧ (1 : ℝ) ≤ 0 + 1 :=
  claim_C4_gems_score.1 0 0 0 le_rfl le_rfl le_rfl

/-! ### Helper lemmas: the retry loop and the collector -/

lemma retryWith_snd : ∀ (n : ℕ) (b : ℚ), (retryWith n b).2 = 1 := by
  intro n
  induction n with
  | zero => intro b; rfl
  | succ n ih => intro b; simpa [retryWith] using ih (min (b * 2) 10)

lemma retryWith_length : ∀ (n : ℕ) (b : ℚ),
    (retryWith n b).1.length = n := by
  intro n
  induction n with
  | zero => intro b; rfl
  | succ n ih => intro b; simpa [retryWith] using ih (min (b * 2) 10)

lemma retryWith_sleeps_le : ∀ (n : ℕ) (b : ℚ), b ≤ 10 →
    ∀ s ∈ (retryWith n b).1, s ≤ 10 := by
  intro n
  induction n with
  | zero => intro b _ s hs; exact absurd hs (by simp [retryWith])
  | succ n ih =>
      intro b hb s hs
      simp only [retryWith, List.mem_cons] at hs
      rcases hs with h | h
      · rw [h]; exact hb
      · exact ih (min (b * 2) 10) (min_le_right _ _) s h

lemma collectLoop_sleeps_le {α : Type} (fetch : ℕ → ℕ × PageData α)
    (M : ℕ) : ∀ (rem page : ℕ) (b : ℚ) (st : CollectSt α), b ≤ 10 →
    (∀ s ∈ st.sleeps, s ≤ 10) →
    ∀ s ∈ (collectLoop fetch M rem page b st).sleeps, s ≤ 10 := by
  intro rem
  induction rem with
  | zero => intro page b st _ hst; exact hst
  | succ rem ih =>
      intro page b st hb hst
      simp only [collectLoop]
      have hst1 : ∀ s ∈ st.sleeps ++ (retryWith (fetch page).1 b).1,
          s ≤ 10 := by
        intro s hs
        rcases List.mem_append.mp hs with h | h
        · exact hst s h
        · exact retryWith_sleeps_le (fetch page).1 b hb s h
      split
      · exact hst1
      · split
        · exact hst1
        · refine ih (page + 1) (retryWith (fetch page).1 b).2 _ ?_ hst1
          rw [retryWith_snd]
          norm_num

/-! Concrete page behaviour for C6: page 1 answers rate-limited twice and
then succeeds with one record and `total_pages = 1`. -/

def c6fetch : ℕ → ℕ × PageData ℕ := fun p =>
  if p = 1 then (2, ⟨some 1, [100]⟩) else (0, ⟨some 1, [0]⟩)

/-- C6.  The retry loop performs one sleep per rate-limited response (the
current backoff first, then doubled capped at 10), terminates with the same
page's success, and resets the backoff to 1 on the non-rate-limited
response; entering with backoff at most the cap, no sleep exceeds 10; over
a whole collector run no sleep exceeds 10; and two 429s then a 200 on page
1 complete page 1 after exactly the two sleeps 1s and 2s. -/
theorem claim_C6_backoff :
    (∀ (n : ℕ) (b : ℚ), b ≤ 10 →
      (retryWith n b).1.length = n ∧ (retryWith n b).2 = 1 ∧
      ∀ s ∈ (retryWith n b).1, s ≤ 10) ∧
    (∀ (fetch : ℕ → ℕ × PageData ℕ) (M : ℕ),
      ∀ s ∈ (collectSt fetch M).sleeps, s ≤ 10) ∧
    (collectSt c6fetch 3).sleeps = [1, 2] ∧
    (collectSt c6fetch 3).all_movies = [100] ∧
    (collectSt c6fetch 3).fetched = [1] := by
  refine ⟨?_, ?_, ?_, ?_, ?_⟩
  · intro n b hb
    exact ⟨retryWith_length n b, retryWith_snd n b,
      retryWith_sleeps_le n b hb⟩
  · intro fetch M
    refine collectLoop_sleeps_le fetch M M 1 1 _ (by norm_num) ?_
    intro s hs
    exact absurd hs (by simp)
  · simp [collectSt, collectLoop, retryWith, c6fetch]
    norm_num
  · simp [collectSt, collectLoop, retryWith, c6fetch]
  · simp [collectSt, collectLoop, retryWith, c6fetch]

/-- Witness for C6: the retry-loop part applied at two rate-limited
responses with the initial backoff 1. -/
theorem claim_C6_witness :
    (retryWith 2 1).1.length = 2 ∧ (retryWith 2 1).2 = 1 ∧
    ∀ s ∈ (retryWith 2 1).1, s ≤ 10 :=
  claim_C6_backoff.1 2 1 (by norm_num)

/-! ### C7: the collector's early stop on an empty page -/

/-- Loop invariant for a run whose first zero-record page is `K`, reached
before any `total_pages` stop: from page `p ≤ K` onward the loop collects
exactly the records of pages `p..K-1` and fetches exactly pages `p..K`. -/
lemma collectLoop_stops_at_empty {α : Type} (fetch : ℕ → ℕ × PageData α)
    (M K : ℕ)
    (hnz : ∀ q, 1 ≤ q → q < K → ((fetch q).2.results).isEmpty = false)
    (hKe : ((fetch K).2.results).isEmpty = true)
    (htp : K ≤ min ((fetch 1).2.total_pages.getD M) M) :
    ∀ (rem p : ℕ) (b : ℚ) (st : CollectSt α), 1 ≤ p → p ≤ K →
      K < p + rem →
      st.total_pages_known =
        (if p = 1 then none
         else some (min ((fetch 1).2.total_pages.getD M) M)) →
      (collectLoop fetch M rem p b st).all_movies =
        st.all_movies ++ pagesConcat fetch p (K - p) ∧
      (collectLoop fetch M rem p b st).fetched =
        st.fetched ++ pagesList p (K - p + 1) := by
  intro rem
  induction rem with
  | zero =>
      intro p b st hp1 hpK hrem _
      omega
  | succ rem ih =>
      intro p b st hp1 hpK hrem htpin
      have htpval : st.total_pages_known.getD
          (min ((fetch p).2.total_pages.getD M) M) =
          min ((fetch 1).2.total_pages.getD M) M := by
        by_cases hp : p = 1
        · rw [htpin, if_pos hp, hp]
          rfl
        · rw [htpin, if_neg hp]
          rfl
      simp only [collectLoop, htpval]
      rcases Nat.lt_or_ge p K with hlt | hge
      · rw [if_neg (by simp [hnz p hp1 hlt]),
          if_neg (by omega : ¬ min ((fetch 1).2.total_pages.getD M) M ≤ p)]
        have hrec := ih (p + 1) (retryWith (fetch p).1 b).2
          ⟨st.all_movies ++ (fetch p).2.results,
            some (min ((fetch 1).2.total_pages.getD M) M),
            st.sleeps ++ (retryWith (fetch p).1 b).1, st.fetched ++ [p]⟩
          (by omega) (by omega) (by omega)
          (by rw [if_neg (by omega : ¬ p + 1 = 1)])
        have hKp : K - p = (K - (p + 1)) + 1 := by omega
        constructor
        · rw [hrec.1, hKp]
          simp [pagesConcat]
        · rw [hrec.2]
          have hKp2 : K - p + 1 = (K - (p + 1) + 1) + 1 := by omega
          rw [hKp2]
          simp [pagesList]
      · have hpK2 : p = K := by omega
        rw [if_pos (by rw [hpK2]; exact hKe)]
        have hK0 : K - p = 0 := by omega
        rw [hK0]
        simp [pagesConcat, pagesList]

/-- Counterexample page behaviour for C7: page 1 reports `total_pages = 2`,
pages other than 4 return one record, page 4 returns zero records. -/
def c7fetch : ℕ → ℕ × PageData ℕ := fun p =>
  if p = 4 then (0, ⟨some 2, []⟩) else (0, ⟨some 2, [p]⟩)

/-- C7 counterexample.  With `max_pages = 5`, page `K = 4` returns zero
records (`K ≤ max_pages`), yet the collector returns the records of pages
1-2 only — not the concatenation of pages 1 through `K-1 = 3` — because the
`total_pages = 2` reported by page 1 stops the run at page 2 before the
zero-record page is reached. -/
theorem claim_C7_counterexample :
    ((c7fetch 4).2.results = [] ∧ 4 ≤ 5) ∧
    collect c7fetch 5 = Except.ok [1, 2] ∧
    pagesConcat c7fetch 1 3 = [1, 2, 3] ∧
    (collectSt c7fetch 5).all_movies ≠ pagesConcat c7fetch 1 3 := by
  refine ⟨⟨rfl, by omega⟩, rfl, rfl, by decide⟩

/-- Concrete scenario for C7: with `max_pages = 3`, page 1 returns 20
records and `total_pages = 1`. -/
def c7fetch20 : ℕ → ℕ × PageData ℕ := fun _ => (0, ⟨some 1, List.range 20⟩)

/-- C7 (amended).  If `K` is the *first* page returning zero records,
`K ≤ max_pages`, and no earlier stop arises from the reported
`total_pages` (that is, `K ≤ min(total_pages reported by page 1 defaulted
to max_pages, max_pages)`), then the collector returns exactly the
concatenation, in page order, of the records of pages `1..K-1` and fetches
exactly pages `1..K`; and with `max_pages = 3` and page 1 returning 20
records with `total_pages = 1`, the collector returns exactly those 20
records and stops after page 1. -/
theorem claim_C7_early_stop {α : Type} (fetch : ℕ → ℕ × PageData α)
    (M K : ℕ) (hK1 : 1 ≤ K) (hKM : K ≤ M)
    (hnz : ∀ q, 1 ≤ q → q < K → ((fetch q).2.results).isEmpty = false)
    (hKe : ((fetch K).2.results).isEmpty = true)
    (htp : K ≤ min ((fetch 1).2.total_pages.getD M) M) :
    ((collectSt fetch M).all_movies = pagesConcat fetch 1 (K - 1) ∧
     (collectSt fetch M).fetched = pagesList 1 K) ∧
    collect c7fetch20 3 = Except.ok (List.range 20) ∧
    (collectSt c7fetch20 3).fetched = [1] := by
  refine ⟨?_, rfl, by decide⟩
  have h := collectLoop_stops_at_empty fetch M K hnz hKe htp M 1 1
    ⟨[], none, [], []⟩ le_rfl hK1 (by omega) (by rw [if_pos rfl])
  constructor
  · rw [collectSt, h.1]
    rfl
  · rw [collectSt, h.2]
    have : K - 1 + 1 = K := by omega
    rw [this]
    rfl

/-- Witness for C7: the amended claim applied to the concrete scenario
where page 3 is the first empty page under `max_pages = 5`. -/
theorem claim_C7_witness :
    (collectSt (fun p => if p = 3 then ((0 : ℕ), (⟨some 5, []⟩ : PageData ℕ))
        else (0, ⟨some 5, [p]⟩)) 5).all_movies =
      pagesConcat (fun p => if p = 3 then ((0 : ℕ), (⟨some 5, []⟩ : PageData ℕ))
        else (0, ⟨some 5, [p]⟩)) 1 2 ∧
    (collectSt (fun p => if p = 3 then ((0 : ℕ), (⟨some 5, []⟩ : PageData ℕ))
        else (0, ⟨some 5, [p]⟩)) 5).fetched = pagesList 1 3 := by
  exact (claim_C7_early_stop
    (fun p => if p = 3 then ((0 : ℕ), (⟨some 5, []⟩ : PageData ℕ))
      else (0, ⟨some 5, [p]⟩)) 5 3
    (by omega) (by omega) (by decide) (by decide) (by decide)).1

/-! ### C8: empty collection result -/

lemma collectSt_all_empty {α : Type} (fetch : ℕ → ℕ × PageData α) (M : ℕ)
    (h : ∀ p, (fetch p).2.results = []) :
    (collectSt fetch M).all_movies = [] := by
  unfold collectSt
  cases M with
  | zero => rfl
  | succ m =>
      simp only [collectLoop]
      rw [if_pos (by rw [h 1]; rfl)]

lemma collect_error_of_empty {α : Type} (fetch : ℕ → ℕ × PageData α)
    (M : ℕ) (h : ∀ p, (fetch p).2.results = []) :
    collect fetch M = Except.error
      "No movies fetched. Please check your TMDB token / connection." := by
  simp only [collect]
  rw [collectSt_all_empty fetch M h]
  rfl

/-- C8.  When every page returns zero records, the collector fails with the
empty-result error rather than returning an empty table, and `get_data`
(with session and CSV tiers empty) reports the failure, returns `none`,
does not raise past its boundary, and leaves the session-state key
unset. -/
theorem claim_C8_empty_result (L : ℚ → ℚ) (Pd : String → Option SDate)
    (G : ℤ → Option String) (lm : Option (List (String × String)))
    (fetch : ℕ → ℕ × PageData Row) (showP0 : Option Bool)
    (h : ∀ p, (fetch p).2.results = []) :
    collect fetch MAX_TMDB_PAGES = Except.error
      "No movies fetched. Please check your TMDB token / connection." ∧
    (get_data L Pd G lm fetch none showP0 none).ret = none ∧
    (get_data L Pd G lm fetch none showP0 none).sessionData = none ∧
    (get_data L Pd G lm fetch none showP0 none).crashed = false ∧
    (get_data L Pd G lm fetch none showP0 none).reportedError = true := by
  have hcol := collect_error_of_empty fetch MAX_TMDB_PAGES h
  have hmiss : getDataMiss L Pd G lm fetch none showP0 =
      ⟨none, none, some (showP0.getD true), false, true⟩ := by
    unfold getDataMiss
    cases hb : showP0.getD true
    · rw [if_neg (by simp), hcol]
    · rw [if_pos rfl,
        if_pos (by rw [collectSt_all_empty fetch DEFAULT_FETCH_PAGES h]; rfl)]
  have hget : get_data L Pd G lm fetch none showP0 none =
      ⟨none, none, some (showP0.getD true), false, true⟩ := by
    unfold get_data getDataCsv
    exact hmiss
  rw [hget]
  exact ⟨hcol, rfl, rfl, rfl, rfl⟩

/-- Witness for C8 at the all-pages-empty fetcher `fetch0`. -/
theorem claim_C8_witness :
    collect fetch0 MAX_TMDB_PAGES = Except.error
      "No movies fetched. Please check your TMDB token / connection." ∧
    (get_data L0 Pd0 G0 none fetch0 none none none).ret = none ∧
    (get_data L0 Pd0 G0 none fetch0 none none none).sessionData = none ∧
    (get_data L0 Pd0 G0 none fetch0 none none none).crashed = false ∧
    (get_data L0 Pd0 G0 none fetch0 none none none).reportedError = true :=
  claim_C8_empty_result L0 Pd0 G0 none fetch0 none (fun _ => rfl)

/-! ### C9: snapshot load regenerates missing derived columns -/

/-- C9.  Provided the snapshot holds the base Record columns (in
particular `genre_ids`, which `save` always writes), `load_data_from_csv`
never fails whatever derived columns are missing: it re-parses
`release_date`, takes `gems_score`, `year`, `genres`, `genres_str` from the
file when present, and regenerates each absent one (`gems_score` from the
rating/vote/popularity formula with `NaN` coerced to 0, `year` from the
parsed date, `genres` and `genres_str` from `genre_ids` via the genre map),
returning a complete Prepared Rows table. -/
theorem claim_C9_load_regenerates (L : ℚ → ℚ) (Pd : String → Option SDate)
    (Pi : String → Option (List ℤ)) (Ps : String → Option (List String))
    (G : ℤ → Option String) (T : StoredTable)
    (hgid : T.has_genre_ids = true) :
    load_data_from_csv L Pd Pi Ps G T =
      some (T.rows.map (loadRow L Pd Pi Ps G T)) ∧
    ∀ r ∈ T.rows,
      (loadRow L Pd Pi Ps G T r).release_date =
        toDatetime Pd r.release_date ∧
      (T.has_gems = true → (loadRow L Pd Pi Ps G T r).gems_score =
        r.gems_score) ∧
      (T.has_gems = false → (loadRow L Pd Pi Ps G T r).gems_score =
        gemsQ L r.vote_average r.vote_count r.popularity) ∧
      (T.has_year = false → (loadRow L Pd Pi Ps G T r).year =
        yearOf (toDatetime Pd r.release_date)) ∧
      ((T.has_genres = false ∨ T.has_genres_str = false) →
        (loadRow L Pd Pi Ps G T r).genres =
          mapGenreIds G (.idList (parse_genre_ids Pi r.genre_ids)) ∧
        (loadRow L Pd Pi Ps G T r).genres_str =
          joinGenres
            (mapGenreIds G (.idList (parse_genre_ids Pi r.genre_ids)))) := by
  constructor
  · simp [load_data_from_csv, hgid]
  · intro r _
    refine ⟨rfl, ?_, ?_, ?_, ?_⟩
    · intro hg
      simp [loadRow, hg]
    · intro hg
      simp [loadRow, hg]
    · intro hy
      simp [loadRow, hy]
    · intro hgen
      rcases hgen with hgen | hgen
      · constructor <;> simp [loadRow, hgen]
      · constructor <;> simp [loadRow, hgen]

/-! Concrete snapshot for the C9 witness: all four derived columns
absent. -/

def Pi0 : String → Option (List ℤ) := fun _ => some [35]

def Ps0 : String → Option (List String) := fun _ => none

def c9row : StoredRow :=
  { adult := false, original_language := "en", vote_average := none,
    vote_count := some 10, popularity := some 1,
    release_date := DateVal.str "2001-05-03",
    genre_ids := StoredCell.strv "[35]", gems_score := 0, year := none,
    genres := StoredCell.null, genres_str := "" }

def c9table : StoredTable :=
  { rows := [c9row], has_genre_ids := true, has_gems := false,
    has_year := false, has_genres := false, has_genres_str := false }

/-- Witness for C9 at a one-row snapshot missing `gems_score`, `year`,
`genres` and `genres_str`. -/
theorem claim_C9_witness :
    load_data_from_csv L0 Pd0 Pi0 Ps0 G0 c9table =
      some (c9table.rows.map (loadRow L0 Pd0 Pi0 Ps0 G0 c9table)) ∧
    ∀ r ∈ c9table.rows,
      (loadRow L0 Pd0 Pi0 Ps0 G0 c9table r).release_date =
        toDatetime Pd0 r.release_date ∧
      (c9table.has_gems = true →
        (loadRow L0 Pd0 Pi0 Ps0 G0 c9table r).gems_score = r.gems_score) ∧
      (c9table.has_gems = false →
        (loadRow L0 Pd0 Pi0 Ps0 G0 c9table r).gems_score =
          gemsQ L0 r.vote_average r.vote_count r.popularity) ∧
      (c9table.has_year = false →
        (loadRow L0 Pd0 Pi0 Ps0 G0 c9table r).year =
          yearOf (toDatetime Pd0 r.release_date)) ∧
      ((c9table.has_genres = false ∨ c9table.has_genres_str = false) →
        (loadRow L0 Pd0 Pi0 Ps0 G0 c9table r).genres =
          mapGenreIds G0 (.idList (parse_genre_ids Pi0 r.genre_ids)) ∧
        (loadRow L0 Pd0 Pi0 Ps0 G0 c9table r).genres_str =
          joinGenres
            (mapGenreIds G0
              (.idList (parse_genre_ids Pi0 r.genre_ids)))) :=
  claim_C9_load_regenerates L0 Pd0 Pi0 Ps0 G0 c9table rfl

/-! ### C10: preparation is total in the genre_ids field -/

lemma mapGenreIds_not_list {G : ℤ → Option String} {v : GenreIdsVal}
    (h : v.isList = false) : mapGenreIds G v = [] := by
  cases v <;> simp_all [GenreIdsVal.isList, mapGenreIds]

lemma prepRow_genres {L : ℚ → ℚ} {Pd : String → Option SDate}
    {G : ℤ → Option String} {lm : Option (List (String × String))}
    {r b : Row} (h : prepRow L Pd G lm r = some b) :
    b.genres = mapGenreIds G r.genre_ids ∧
    b.genres_str = joinGenres (mapGenreIds G r.genre_ids) := by
  cases lm with
  | none =>
      rw [prepRow_lm_none] at h
      simp only [Option.some.injEq] at h
      rw [← h]
      exact ⟨rfl, rfl⟩
  | some m =>
      simp only [prepRow] at h
      cases hl : List.lookup r.original_language m with
      | none => rw [hl] at h; exact absurd h (by simp)
      | some nm =>
          rw [hl] at h
          simp only [Option.some.injEq] at h
          rw [← h]
          exact ⟨rfl, rfl⟩

/-- C10.  A `genre_ids` cell that is not a list (missing, `NaN`, or a
scalar) never makes `prepare_df` fail — with no language table the whole
preparation succeeds on any table — and in any successful preparation such
a row comes out with `genres = []` and `genres_str = "Unknown"`. -/
theorem claim_C10_genre_ids_total (L : ℚ → ℚ) (Pd : String → Option SDate)
    (G : ℤ → Option String) (lm : Option (List (String × String)))
    (rows : List Row) :
    (prepare_df L Pd G none rows).isSome = true ∧
    (∀ out, prepare_df L Pd G lm rows = some out →
      List.Forall₂
        (fun a b => a.genre_ids.isList = false →
          b.genres = [] ∧ b.genres_str = "Unknown") rows out) := by
  refine ⟨prepRows_lm_none_isSome L Pd G rows, ?_⟩
  intro out h
  refine (prepRows_forall₂ h).imp ?_
  intro a b hab hnl
  obtain ⟨h1, h2⟩ := prepRow_genres hab
  rw [mapGenreIds_not_list hnl] at h1 h2
  exact ⟨h1, h2⟩

/-- A raw record whose `genre_ids` cell is a scalar. -/
def c10row : Row :=
  { adult := false, original_language := "en", vote_average := none,
    vote_count := some 10, popularity := some 1,
    release_date := DateVal.null, genre_ids := GenreIdsVal.scalar 35,
    year := none, gems_score := 0, genres := ["stale"],
    genres_str := "stale" }

/-- Witness for C10 at the scalar-`genre_ids` row (no language table). -/
theorem claim_C10_witness :
    (prepare_df L0 Pd0 G0 none [c10row]).isSome = true ∧
    List.Forall₂
      (fun a b => a.genre_ids.isList = false →
        b.genres = [] ∧ b.genres_str = "Unknown")
      [c10row]
      [{ c10row with genres := [], genres_str := "Unknown" }] := by
  constructor
  · exact (claim_C10_genre_ids_total L0 Pd0 G0 none [c10row]).1
  · exact (claim_C10_genre_ids_total L0 Pd0 G0 none [c10row]).2
      [{ c10row with genres := [], genres_str := "Unknown" }] (by decide)

end Moviever
